import Mathlib

/-!
Verification of the household-demand disaggregation core of eGon-data
(`src/egon/data/processing/hh_demand/hh_demand_profiles.py` and its
near-duplicate `hh_demand_profiles_tools.py`).

Numeric values are embedded as rationals (`ℚ`); the pandas/NumPy float
operations used by the code are algebraic (sums, products, divisions), so
their exact content is captured by `ℚ`, with the one exception of division
by zero, which IEEE floats turn into `inf`/`NaN`: wherever that matters the
embedding returns `Option ℚ` with `none` standing for a non-finite float.
Python's global Mersenne-Twister state becomes explicit state passing of a
generator seed (`Nat`); `random.sample` is modelled as a draw-without-
replacement parameterised by that generator, and exceptions (`ValueError`
from `random.sample`, `KeyError` from `pandas.loc` / `del`) become `none`.
-/

/-- `np.rint`: round to nearest integer, ties to even
(used in `get_cell_demand_profile_ids` of `hh_demand_profiles.py`:
`np.rint(df_cell["hh_10types"].values).astype(int)`). -/
def rint (q : ℚ) : Int :=
  let f : Int := ⌊q⌋
  let r : ℚ := q - (f : ℚ)
  if r < 1/2 then f
  else if 1/2 < r then f + 1
  else if f % 2 = 0 then f else f + 1

/-- NumPy `astype(int)` on a float: truncation toward zero
(used in `get_cell_demand_profile_ids` of `hh_demand_profiles_tools.py`:
`df_cell['hh_10types'].astype(int)`). -/
def truncToInt (q : ℚ) : Int :=
  if 0 ≤ q then ⌊q⌋ else ⌈q⌉

/-- One step of the pseudo-random generator modelling Python's global
`random` state (any deterministic generator represents it; the theorems
below hold for every generator value). -/
def lcgNext (s : Nat) : Nat × Nat :=
  let s2 := (s * 1103515245 + 12345) % 2147483648
  (s2, s2)

/-- Core of `random.sample(population, k)`: draw `k` elements from `pool`
without replacement, threading the generator. Each step picks a position
from the remaining pool and removes the picked value. -/
def drawAux : Nat → List Nat → Nat → List Nat × Nat
  | g, _, 0 => ([], g)
  | g, pool, k + 1 =>
    let p := lcgNext g
    let x := pool.getD (p.1 % pool.length) 0
    let rest := pool.erase x
    let res := drawAux p.2 rest k
    (x :: res.1, res.2)

/-- `random.sample(range(n), k)`: returns `none` (the `ValueError`
"Sample larger than population or is negative") when `k < 0` or `k > n`,
otherwise `k` distinct members of `range n`. -/
def randomSample (g : Nat) (n : Nat) (k : Int) : Option (List Nat × Nat) :=
  if 0 ≤ k ∧ k.toNat ≤ n then some (drawAux g (List.range n) k.toNat) else none

/-- One row of the per-cell household table handed to the sampler: a fine
household type (`hh_type` column) together with its real-valued expected
count (`hh_10types` column). -/
structure HHRow where
  hh_type : String
  hh_10types : ℚ
deriving DecidableEq

/-- The row loop of `get_cell_demand_profile_ids`
(`hh_demand_profiles.py`, lines 569-575): for each `(hh_type, hh_10types)`
row, `random.sample(range(pool_size[hh_type]), k=np.rint(hh_10types))`,
threading Python's global random state. Returns the per-row draws. -/
def drawRows : List HHRow → (String → Nat) → Nat →
    Option (List (String × List Nat) × Nat)
  | [], _, g => some ([], g)
  | r :: rs, pool, g =>
    match randomSample g (pool r.hh_type) (rint r.hh_10types) with
    | none => none
    | some (ids, g2) =>
      match drawRows rs pool g2 with
      | none => none
      | some (rest, g3) => some ((r.hh_type, ids) :: rest, g3)

/-- Same loop as in `hh_demand_profiles_tools.py` (lines 256-258), whose
only difference is the conversion of the expected count:
`df_cell['hh_10types'].astype(int)` (truncation) instead of `np.rint`. -/
def drawRowsTools : List HHRow → (String → Nat) → Nat →
    Option (List (String × List Nat) × Nat)
  | [], _, g => some ([], g)
  | r :: rs, pool, g =>
    match randomSample g (pool r.hh_type) (truncToInt r.hh_10types) with
    | none => none
    | some (ids, g2) =>
      match drawRowsTools rs pool g2 with
      | none => none
      | some (rest, g3) => some ((r.hh_type, ids) :: rest, g3)

/-- `get_cell_demand_profile_ids` (`hh_demand_profiles.py`): the per-row
draws flattened to the cell's list of `(hh_type, profile_id)` pairs
(the `zip(cycle([hh_type]), ids)` + flatten steps). -/
def getCellDemandProfileIds (rows : List HHRow) (pool : String → Nat)
    (g : Nat) : Option (List (String × Nat) × Nat) :=
  match drawRows rows pool g with
  | none => none
  | some (ps, g2) =>
    some ((ps.map (fun p => p.2.map (fun i => (p.1, i)))).flatten, g2)

/-- What claim C3 asserts of a single `(cell, fine-type)` row's draw. -/
def RowDrawOk (pool : String → Nat) (r : HHRow) (p : String × List Nat) :
    Prop :=
  p.1 = r.hh_type ∧ p.2.length = (rint r.hh_10types).toNat ∧
    p.2.Nodup ∧ ∀ x ∈ p.2, x < pool r.hh_type

/-- One row of the enriched per-cell table `df_zensus_cells` (columns used
by `get_cell_demand_metadata`): cell identifiers, the fine household type
and its expected count, and the administrative regions. -/
structure CellRow where
  grid_id : String
  cell_id : Nat
  hh_type : String
  hh_10types : ℚ
  nuts3 : String
  nuts1 : String
deriving DecidableEq

/-- Insert a key into a sorted list of distinct keys (helper realising the
sorted, deduplicated grouping keys produced by `pandas.groupby`). -/
def insertKey (x : String) : List String → List String
  | [] => [x]
  | y :: ys =>
    if x = y then y :: ys
    else if x < y then x :: y :: ys
    else y :: insertKey x ys

/-- The sorted distinct keys of `df_zensus_cells.groupby(by="grid_id")`. -/
def sortedKeys (l : List String) : List String :=
  l.foldr insertKey []

/-- `df_cell`: the rows of one grid cell, projected to the columns the
sampler reads. -/
def cellsOfGrid (cells : List CellRow) (gid : String) : List HHRow :=
  (cells.filter (fun c => c.grid_id = gid)).map
    (fun c => ⟨c.hh_type, c.hh_10types⟩)

/-- The `groupby` loop of `get_cell_demand_metadata`: one cell draw per
grid id, threading the global random state from cell to cell. -/
def metadataDraws : List String → List CellRow → (String → Nat) → Nat →
    Option (List (String × List (String × Nat)) × Nat)
  | [], _, _, g => some ([], g)
  | gid :: gids, cells, pool, g =>
    match getCellDemandProfileIds (cellsOfGrid cells gid) pool g with
    | none => none
    | some (ids, g2) =>
      match metadataDraws gids cells pool g2 with
      | none => none
      | some (rest, g3) => some ((gid, ids) :: rest, g3)

/-- `get_cell_demand_metadata` (`hh_demand_profiles.py`, lines 588-655),
restricted to the `cell_profile_ids` column it fills: for each grid id (in
the sorted order `pandas.groupby` iterates), sample the cell's profile
ids. -/
def getCellDemandMetadata (cells : List CellRow) (pool : String → Nat)
    (g : Nat) : Option (List (String × List (String × Nat)) × Nat) :=
  metadataDraws (sortedKeys (cells.map (fun c => c.grid_id))) cells pool g

/-- One row of `df_cell_demand_metadata` before the reconciler runs
(columns `cell_profile_ids` and `nuts3`; the other columns play no role
in the factor computation). -/
structure CellMeta where
  grid_id : String
  cell_profile_ids : List (String × Nat)
  nuts3 : String
deriving DecidableEq

/-- The same row after `adjust_to_demand_regio_nuts3_annual` filled the
`factor_2035` and `factor_2050` columns. -/
structure CellMetaF where
  grid_id : String
  cell_profile_ids : List (String × Nat)
  nuts3 : String
  factor_2035 : ℚ
  factor_2050 : ℚ
deriving DecidableEq

/-- `df_profiles.loc[:, ids].sum().sum()`: total annual energy (in the
profiles' Wh unit) of a list of profile references, counted with
multiplicity exactly as the pandas column selection repeats duplicated
labels. -/
def annualSum (profiles : String × Nat → List ℚ)
    (ids : List (String × Nat)) : ℚ :=
  (ids.map (fun p => (profiles p).sum)).sum

/-- `df_nuts3.loc[:, "cell_profile_ids"].sum()`: concatenation of the
profile-reference lists of all cells of one NUTS-3 region, in row order. -/
def nuts3ProfileIds (metas : List CellMeta) (n3 : String) :
    List (String × Nat) :=
  ((metas.filter (fun m => m.nuts3 = n3)).map
    (fun m => m.cell_profile_ids)).flatten

/-- The scaling-factor formula of `adjust_to_demand_regio_nuts3_annual`:
`demand_mwha * 1e3 / (nuts3_profiles_sum_annual / 1e3)` (demand regio in
MWh, profiles in Wh). -/
def scalingFactor (demand_mwha sumWh : ℚ) : ℚ :=
  demand_mwha * 1000 / (sumWh / 1000)

/-- Row loop of `adjust_to_demand_regio_nuts3_annual`: the code iterates
over the NUTS-3 groups and stores each group's factor on every cell of the
group; equivalently (and exactly, since the factor only depends on the
cell's `nuts3` value), each row receives the factor of its own region.
`df_demand_regio.loc[(year, nuts3), "demand_mwha"]` is a keyed lookup
whose miss raises `KeyError`, modelled by the `none` branch. -/
def assignFactors (all : List CellMeta)
    (profiles : String × Nat → List ℚ)
    (demandRegio : Nat × String → Option ℚ) :
    List CellMeta → Option (List CellMetaF)
  | [] => some []
  | m :: ms =>
    match demandRegio (2035, m.nuts3), demandRegio (2050, m.nuts3),
        assignFactors all profiles demandRegio ms with
    | some d35, some d50, some rest =>
      some (⟨m.grid_id, m.cell_profile_ids, m.nuts3,
        scalingFactor d35 (annualSum profiles (nuts3ProfileIds all m.nuts3)),
        scalingFactor d50 (annualSum profiles (nuts3ProfileIds all m.nuts3))⟩
        :: rest)
    | _, _, _ => none

/-- `adjust_to_demand_regio_nuts3_annual` (`hh_demand_profiles.py`,
lines 659-714). -/
def adjustToDemandRegioNuts3Annual (metas : List CellMeta)
    (profiles : String × Nat → List ℚ)
    (demandRegio : Nat × String → Option ℚ) : Option (List CellMetaF) :=
  assignFactors metas profiles demandRegio metas

/-- What the reconciler writes into each successful row. -/
def FactorRowOk (all : List CellMeta)
    (profiles : String × Nat → List ℚ)
    (demandRegio : Nat × String → Option ℚ)
    (m : CellMeta) (o : CellMetaF) : Prop :=
  o.grid_id = m.grid_id ∧ o.cell_profile_ids = m.cell_profile_ids ∧
    o.nuts3 = m.nuts3 ∧
    ∃ d35 d50, demandRegio (2035, m.nuts3) = some d35 ∧
      demandRegio (2050, m.nuts3) = some d50 ∧
      o.factor_2035 =
        scalingFactor d35 (annualSum profiles (nuts3ProfileIds all m.nuts3)) ∧
      o.factor_2050 =
        scalingFactor d50 (annualSum profiles (nuts3ProfileIds all m.nuts3))

/-- `np.zeros(timesteps)`: the all-zero accumulator series of
`get_load_timeseries`. -/
def zerosSeries (n : Nat) : List ℚ := List.replicate n 0

/-- `pd.Series.add` on two aligned series of the same length. -/
def addSeries (a b : List ℚ) : List ℚ := a.zipWith (· + ·) b

/-- `df_profiles.loc[:, ids].sum(axis=1)` evaluated at time step `t`:
the elementwise sum over the referenced profiles (with multiplicity). -/
def seriesAt (profiles : String × Nat → List ℚ)
    (ids : List (String × Nat)) (t : Nat) : ℚ :=
  (ids.map (fun p => (profiles p).getD t 0)).sum

/-- `part_load` of `get_load_timeseries`:
`df_profiles.loc[:, ids].sum(axis=1) * factor / 1e3` ("profiles in Wh",
output in kWh). -/
def partLoad (profiles : String × Nat → List ℚ) (timesteps : Nat)
    (ids : List (String × Nat)) (factor : ℚ) : List ℚ :=
  (List.range timesteps).map
    (fun t => seriesAt profiles ids t * factor / 1000)

/-- The `factor_{year}` column selection of `get_load_timeseries`. -/
def factorOf (year : Nat) (m : CellMetaF) : ℚ :=
  if year = 2035 then m.factor_2035 else m.factor_2050

/-- The distinct `(nuts3, factor)` keys of
`load_area_meta.groupby(by=["nuts3", f"factor_{year}"])` (the iteration
order of `groupby` does not affect the accumulated sum, since series
addition is commutative; `dedup` fixes one enumeration of the keys). -/
def groupKeys (metas : List CellMetaF) (year : Nat) : List (String × ℚ) :=
  (metas.map (fun m => (m.nuts3, factorOf year m))).dedup

/-- `df["cell_profile_ids"].sum()` for one `(nuts3, factor)` group: the
concatenated profile references of the group's cells. -/
def groupProfileIds (metas : List CellMetaF) (year : Nat)
    (key : String × ℚ) : List (String × Nat) :=
  ((metas.filter
      (fun m => m.nuts3 = key.1 ∧ factorOf year m = key.2)).map
    (fun m => m.cell_profile_ids)).flatten

/-- `get_load_timeseries` (`hh_demand_profiles.py`, lines 717-773), for
`peak_load_only=False`: the per-substation accumulator loop
(`mv_grid_district_HH_electricity_load` calls this once per substation
group). -/
def getLoadTimeseries (profiles : String × Nat → List ℚ)
    (timesteps : Nat) (metas : List CellMetaF) (year : Nat) : List ℚ :=
  (groupKeys metas year).foldl
    (fun acc key =>
      addSeries acc
        (partLoad profiles timesteps (groupProfileIds metas year key)
          key.2))
    (zerosSeries timesteps)

/-- The substation series as §4.5 of the spec words it, kept only to
compare the code's aggregator against claim C1: factor times the
elementwise profile sum, accumulated into an all-zero series, and no
other scaling. -/
def specPartLoad (profiles : String × Nat → List ℚ) (timesteps : Nat)
    (ids : List (String × Nat)) (factor : ℚ) : List ℚ :=
  (List.range timesteps).map (fun t => seriesAt profiles ids t * factor)

/-- The full spec-worded accumulation (see `specPartLoad`). -/
def specSubstationSeries (profiles : String × Nat → List ℚ)
    (timesteps : Nat) (metas : List CellMetaF) (year : Nat) : List ℚ :=
  (groupKeys metas year).foldl
    (fun acc key =>
      addSeries acc
        (specPartLoad profiles timesteps (groupProfileIds metas year key)
          key.2))
    (zerosSeries timesteps)

/-- The five coarse Zensus household groups and their fine sub-types
(`MAPPING_ZENSUS_HH_SUBGROUPS`). -/
def hhSubgroups : List (List String) :=
  [["SR", "SO"], ["PR", "PO"], ["SK"], ["P1", "P2", "P3"], ["OR", "OO"]]

/-- Float division as pandas performs it inside the share-normalization
loop: a zero denominator yields `NaN` (`0/0`) or `±inf`, never an
exception; `none` stands for such a non-finite float. -/
def fdiv (a b : ℚ) : Option ℚ := if b = 0 then none else some (a / b)

/-- The share-normalization loop of `houseprofiles_in_census_cells`
(lines 831-835): for each coarse subgroup, divide each member type's
household count by the subgroup sum (one federal-state column at a
time; `counts` is that column). A type outside every subgroup is left
untouched by the loop. -/
def normalizeSubgroupShares (counts : String → ℚ) (t : String) :
    Option ℚ :=
  match hhSubgroups.find? (fun g => g.contains t) with
  | some g => fdiv (counts t) ((g.map counts).sum)
  | none => some (counts t)

/-- `inhabitants_to_households` (`hh_demand_profiles.py`, lines 434-478):
the symmetric difference between the table's index and the mapping's key
set, whose members are then `del`eted from the mapping one by one. -/
def symmDiffKeys (idx keys : List String) : List String :=
  idx.filter (fun t => ¬ keys.contains t) ++
    keys.filter (fun t => ¬ idx.contains t)

/-- Python `del mapping[key]`: fails (`KeyError`) when the key is
absent. -/
def delKey (m : List (String × ℚ)) (k : String) :
    Option (List (String × ℚ)) :=
  if k ∈ m.map Prod.fst then some (m.filter (fun p => p.1 ≠ k)) else none

/-- The `for key in diff: del mapping[key]` loop. -/
def delKeys : List (String × ℚ) → List String →
    Option (List (String × ℚ))
  | m, [] => some m
  | m, k :: ks =>
    match delKey m k with
    | none => none
    | some m2 => delKeys m2 ks

/-- Keyed lookup in the (remaining) people-per-household mapping; a miss
is pandas alignment producing `NaN`, modelled as `none`. -/
def lookupQ (m : List (String × ℚ)) (k : String) : Option ℚ :=
  (m.find? (fun p => p.1 = k)).map Prod.snd

/-- `inhabitants_to_households`: remove the symmetric difference from the
mapping (raising `KeyError` when a removed key is not in the mapping),
then divide people counts by persons-per-household and take `np.ceil`. -/
def inhabitantsToHouseholds (idx : List String) (people : String → ℚ)
    (mapping : List (String × ℚ)) :
    Option (List (String × Option ℚ)) :=
  match delKeys mapping (symmDiffKeys idx (mapping.map Prod.fst)) with
  | none => none
  | some m2 =>
    some (idx.map (fun t =>
      (t, (lookupQ m2 t).map (fun d => ((⌈people t / d⌉ : Int) : ℚ)))))

/-- Shared pool of 10 profiles per type (the spec's worked example). -/
def poolTen : String → Nat := fun _ => 10

/-- Cell with one single-adult row of expected count 2.4. -/
def rowsC3 : List HHRow := [⟨"SO", 12/5⟩]

/-- Cell row whose rounded count (5) exceeds a pool of size 3. -/
def rowsC7 : List HHRow := [⟨"SO", 5⟩]

/-- Pool of only 3 profiles per type. -/
def poolThree : String → Nat := fun _ => 3

/-- Cell with one single-adult row of expected count 1.6. -/
def rowC2 : List HHRow := [⟨"SO", 8/5⟩]

/-- The part of a cell row the sampling stage actually reads: the grid
grouping key and the `(hh_type, hh_10types)` columns (everything else —
`cell_id`, `nuts3`, `nuts1` — is only copied through). -/
def SamplerVisible (a b : CellRow) : Prop :=
  a.grid_id = b.grid_id ∧ a.hh_type = b.hh_type ∧
    a.hh_10types = b.hh_10types

/-- Two-cell input for the determinism witness. -/
def cellsW1 : List CellRow :=
  [⟨"a", 1, "SO", 2, "DEA01", "DE1"⟩, ⟨"b", 2, "SO", 1, "DEA01", "DE1"⟩]

/-- The same two cells with different pass-through columns. -/
def cellsW2 : List CellRow :=
  [⟨"a", 1, "SO", 2, "XXX", "YY"⟩, ⟨"b", 7, "SO", 1, "XXX", "YY"⟩]

/-- Metadata of one cell in region DEA01. -/
def metasC5 : List CellMeta := [⟨"g1", [("SO", 0)], "DEA01"⟩]

/-- Profile library in which every profile sums to 800 Wh. -/
def profilesOne : String × Nat → List ℚ := fun _ => [800]

/-- Demand reference that lacks the 2035 scenario year. -/
def drC5 : Nat × String → Option ℚ :=
  fun p => if p.1 = 2050 then some 5 else none

/-- Two-cell region for the C6/C8 witnesses (spec example shape: four
referenced profiles). -/
def metasC6 : List CellMeta :=
  [⟨"g1", [("SO", 0), ("SO", 1)], "N3"⟩,
   ⟨"g2", [("SO", 2), ("SO", 3)], "N3"⟩]

/-- Profile library in which every profile sums to 200 Wh (region total
800 Wh). -/
def profilesC6 : String × Nat → List ℚ := fun _ => [200]

/-- Demand reference: 1 MWh for every region and year. -/
def drC6 : Nat × String → Option ℚ := fun _ => some 1

/-- The reconciler output on the C6 witness data: factor
`1 * 1e3 / (800 / 1e3) = 1250` on both cells and years. -/
def outC6 : List CellMetaF :=
  [⟨"g1", [("SO", 0), ("SO", 1)], "N3", 1250, 1250⟩,
   ⟨"g2", [("SO", 2), ("SO", 3)], "N3", 1250, 1250⟩]

/-- The first output cell of the C6/C8 witness data. -/
def cellF1 : CellMetaF := ⟨"g1", [("SO", 0), ("SO", 1)], "N3", 1250, 1250⟩

/-- C8 counterexample input: a region whose authoritative 2035 demand is
zero. -/
def drC8 : Nat × String → Option ℚ :=
  fun p => if p.1 = 2035 then some 0 else some 5

/-- Profile library for the C1 counterexample: every profile is the
one-step series `[200]` (four referenced profiles sum to 800). -/
def profilesC1 : String × Nat → List ℚ := fun _ => [200]

/-- Two cells of one substation and one region, factor 1.25 for 2035
(the spec's worked example: authoritative demand 1000, raw sum 800). -/
def metasC1 : List CellMetaF :=
  [⟨"a", [("SO", 0), ("SO", 1)], "N3", 5/4, 1⟩,
   ⟨"b", [("SO", 2), ("SO", 3)], "N3", 5/4, 1⟩]

/-- C4 counterexample input: no single-parent households (`SK` count 0),
two households in every other type. -/
def countsC4 : String → ℚ := fun t => if t = "SK" then 0 else 2

/-- C4 witness input: three couples without kids, nothing else. -/
def countsC4b : String → ℚ := fun t => if t = "PR" then 3 else 0

/-- Mapping with entries for single seniors and single adults only. -/
def mappingC10 : List (String × ℚ) := [("SR", 1), ("SO", 1)]

/-- Behaviour of `drawAux`: whenever the requested count fits in the pool
and the pool has no duplicates, the draw returns exactly `k` pairwise
distinct members of the pool. -/
theorem drawAux_spec (k : Nat) (g : Nat) (pool : List Nat)
    (hk : k ≤ pool.length) (hnd : pool.Nodup) :
    (drawAux g pool k).1.length = k ∧ (drawAux g pool k).1.Nodup ∧
      ∀ x ∈ (drawAux g pool k).1, x ∈ pool := by
  induction k generalizing g pool with
  | zero => simp [drawAux]
  | succ k ih =>
    have hlen : 0 < pool.length := Nat.lt_of_lt_of_le (Nat.succ_pos k) hk
    have hi : (lcgNext g).1 % pool.length < pool.length := Nat.mod_lt _ hlen
    have hx : pool.getD ((lcgNext g).1 % pool.length) 0 ∈ pool := by
      rw [List.getD_eq_getElem _ _ hi]
      exact List.getElem_mem hi
    have hrestlen :
        (pool.erase (pool.getD ((lcgNext g).1 % pool.length) 0)).length
          = pool.length - 1 :=
      List.length_erase_of_mem hx
    have hk2 : k ≤ (pool.erase
        (pool.getD ((lcgNext g).1 % pool.length) 0)).length := by
      rw [hrestlen]
      omega
    have hnd2 := hnd.erase (pool.getD ((lcgNext g).1 % pool.length) 0)
    obtain ⟨ihlen, ihnd, ihmem⟩ := ih (lcgNext g).2 _ hk2 hnd2
    refine ⟨?_, ?_, ?_⟩
    · simp only [drawAux, List.length_cons, ihlen]
    · simp only [drawAux, List.nodup_cons]
      refine ⟨fun hmem => ?_, ihnd⟩
      have := ihmem _ hmem
      have := (hnd.mem_erase_iff.mp this).1
      exact this rfl
    · intro x hmem
      simp only [drawAux, List.mem_cons] at hmem
      rcases hmem with rfl | hmem
      · exact hx
      · exact List.erase_subset _ _ (ihmem x hmem)

/-- Behaviour of `randomSample`: a successful draw of `k` from `range n`
yields `k.toNat` pairwise distinct ids, all below `n`; a draw is successful
exactly when `0 ≤ k ≤ n`. -/
theorem randomSample_spec (g n : Nat) (k : Int) (ids : List Nat) (g' : Nat)
    (h : randomSample g n k = some (ids, g')) :
    ids.length = k.toNat ∧ ids.Nodup ∧ ∀ x ∈ ids, x < n := by
  unfold randomSample at h
  split at h
  case isTrue hcond =>
    obtain ⟨hk0, hkn⟩ := hcond
    have hkn' : k.toNat ≤ (List.range n).length := by
      simpa [List.length_range] using hkn
    obtain ⟨hlen, hnd, hmem⟩ :=
      drawAux_spec k.toNat g (List.range n) hkn' (List.nodup_range n)
    have h2 : drawAux g (List.range n) k.toNat = (ids, g') := by
      injection h
    rw [h2] at hlen hnd hmem
    exact ⟨hlen, hnd, fun x hx => List.mem_range.mp (hmem x hx)⟩
  case isFalse => exact absurd h (by simp)

/-- `randomSample` fails (the `ValueError` of `random.sample`) exactly when
the requested count is negative or exceeds the pool size. -/
theorem randomSample_eq_none_iff (g n : Nat) (k : Int) :
    randomSample g n k = none ↔ ¬(0 ≤ k ∧ k.toNat ≤ n) := by
  unfold randomSample
  split <;> simp_all

/-- Row-wise specification of `drawRows`: a successful pass draws, for
every input row, `rint (expected count)` pairwise-distinct profile ids out
of `[0, pool_size[hh_type])`. -/
theorem drawRows_spec (rows : List HHRow) (pool : String → Nat)
    (g : Nat) (out : List (String × List Nat)) (g' : Nat)
    (h : drawRows rows pool g = some (out, g')) :
    List.Forall₂ (RowDrawOk pool) rows out := by
  induction rows generalizing g out g' with
  | nil =>
    simp only [drawRows, Option.some.injEq] at h
    obtain ⟨rfl, rfl⟩ := Prod.mk.injEq .. ▸ h
    constructor
  | cons r rs ih =>
    simp only [drawRows] at h
    split at h
    next => exact absurd h (by simp)
    next ids g2 hs =>
      split at h
      next => exact absurd h (by simp)
      next rest g3 hrec =>
        simp only [Option.some.injEq, Prod.mk.injEq] at h
        obtain ⟨hout, -⟩ := h
        obtain ⟨hlen, hnd, hmem⟩ := randomSample_spec _ _ _ _ _ hs
        subst hout
        exact List.Forall₂.cons ⟨rfl, hlen, hnd, hmem⟩ (ih g2 rest g3 hrec)

/-- If any row requests more distinct ids than its type's pool holds, the
whole cell draw fails, whatever the generator state: the `ValueError`
raised inside the list comprehension propagates out of
`get_cell_demand_profile_ids` (there is no `try`/`except` in the module,
so no retry and no partial result). -/
theorem drawRows_eq_none_of_exceeds (rows : List HHRow)
    (pool : String → Nat) (r : HHRow) (hr : r ∈ rows)
    (hbad : pool r.hh_type < (rint r.hh_10types).toNat) :
    ∀ g, drawRows rows pool g = none := by
  induction rows with
  | nil => cases hr
  | cons r0 rs ih =>
    intro g
    rcases List.mem_cons.mp hr with rfl | hmem
    · have : randomSample g (pool r.hh_type) (rint r.hh_10types) = none := by
        rw [randomSample_eq_none_iff]
        rintro ⟨-, hle⟩
        omega
      simp only [drawRows, this]
    · simp only [drawRows]
      split
      · rfl
      next ids g2 _ =>
        rw [ih hmem g2]

/-- Concrete values of the two integer conversions, matching the worked
example of the spec (expected counts 2.4 and 1.6). -/
theorem rint_values :
    rint (12/5) = 2 ∧ rint (8/5) = 2 ∧ rint (5/2) = 2 ∧ rint (7/2) = 4 ∧
      truncToInt (12/5) = 2 ∧ truncToInt (8/5) = 1 := by
  refine ⟨?_, ?_, ?_, ?_, ?_, ?_⟩ <;> norm_num [rint, truncToInt]

/-- Success case of the reconciler row loop: every output row carries its
region's factor, computed by the `scalingFactor` formula from a demand
value that was actually found for both scenario years. -/
theorem assignFactors_spec (all : List CellMeta)
    (profiles : String × Nat → List ℚ)
    (demandRegio : Nat × String → Option ℚ)
    (metas : List CellMeta) (out : List CellMetaF)
    (h : assignFactors all profiles demandRegio metas = some out) :
    List.Forall₂ (FactorRowOk all profiles demandRegio) metas out := by
  induction metas generalizing out with
  | nil =>
    simp only [assignFactors, Option.some.injEq] at h
    subst h
    constructor
  | cons m ms ih =>
    simp only [assignFactors] at h
    split at h
    next d35 d50 rest h35 h50 hrec =>
      simp only [Option.some.injEq] at h
      subst h
      exact List.Forall₂.cons
        ⟨rfl, rfl, rfl, d35, d50, h35, h50, rfl, rfl⟩ (ih rest hrec)
    next => exact absurd h (by simp)

/-- Failure case: a missing demand-regio entry for a region that owns at
least one metadata row makes the whole reconciliation fail. -/
theorem assignFactors_eq_none (all : List CellMeta)
    (profiles : String × Nat → List ℚ)
    (demandRegio : Nat × String → Option ℚ)
    (metas : List CellMeta) (m : CellMeta) (hm : m ∈ metas)
    (hmiss : demandRegio (2035, m.nuts3) = none ∨
      demandRegio (2050, m.nuts3) = none) :
    assignFactors all profiles demandRegio metas = none := by
  induction metas with
  | nil => cases hm
  | cons m0 ms ih =>
    rcases List.mem_cons.mp hm with rfl | hmem
    · simp only [assignFactors]
      split
      next d35 d50 rest h35 h50 hrec =>
        rcases hmiss with hmiss | hmiss
        · rw [hmiss] at h35; cases h35
        · rw [hmiss] at h50; cases h50
      next => rfl
    · simp only [assignFactors, ih hmem]
      split
      next h => cases h
      next => rfl

/-- The code's `part_load` is the spec-worded partial series divided by
1000 (the Wh→kWh conversion). -/
theorem partLoad_eq_specPartLoad (profiles : String × Nat → List ℚ)
    (timesteps : Nat) (ids : List (String × Nat)) (factor : ℚ) :
    partLoad profiles timesteps ids factor =
      (specPartLoad profiles timesteps ids factor).map (· / 1000) := by
  simp only [partLoad, specPartLoad, List.map_map, Function.comp_def]

/-- Division by 1000 commutes with series addition. -/
theorem addSeries_map_div (a b : List ℚ) :
    addSeries (a.map (· / 1000)) (b.map (· / 1000)) =
      (addSeries a b).map (· / 1000) := by
  induction a generalizing b with
  | nil => simp [addSeries]
  | cons x xs ih =>
    cases b with
    | nil => simp [addSeries]
    | cons y ys =>
      simp only [addSeries] at ih ⊢
      simp only [List.map_cons, List.zipWith_cons_cons, List.cons.injEq]
      exact ⟨(add_div x y 1000).symm, ih ys⟩

/-- Division by 1000 fixes the all-zero series. -/
theorem zerosSeries_map_div (n : Nat) :
    (zerosSeries n).map (· / 1000) = zerosSeries n := by
  simp [zerosSeries, List.map_replicate]

/-- The accumulation loop with the scaled partial loads equals the
accumulation loop with the unscaled ones, divided by 1000. -/
theorem foldl_addSeries_map (pl spl : String × ℚ → List ℚ)
    (hpl : ∀ k, pl k = (spl k).map (· / 1000)) :
    ∀ (keys : List (String × ℚ)) (a : List ℚ),
      keys.foldl (fun acc k => addSeries acc (pl k)) (a.map (· / 1000)) =
        (keys.foldl (fun acc k => addSeries acc (spl k)) a).map (· / 1000)
  | [], _ => rfl
  | k :: ks, a => by
    simp only [List.foldl_cons, hpl k, addSeries_map_div]
    exact foldl_addSeries_map pl spl hpl ks (addSeries a (spl k))

/-- The scaling-factor formula in consistent units: with a nonzero
synthetic sum, `demand_mwha * 1e3 / (sumWh / 1e3)` is the demand
expressed in Wh divided by the synthetic sum in Wh. -/
theorem scalingFactor_eq (d S : ℚ) (hS : S ≠ 0) :
    scalingFactor d S = d * 1000000 / S := by
  field_simp [scalingFactor]
  ring

/-- Members of the right list of a `Forall₂` have a related partner. -/
theorem forall₂_exists_left {α β : Type} {R : α → β → Prop} :
    ∀ {l₁ : List α} {l₂ : List β}, List.Forall₂ R l₁ l₂ →
      ∀ b ∈ l₂, ∃ a ∈ l₁, R a b := by
  intro l₁ l₂ h
  induction h with
  | nil => intro b hb; cases hb
  | cons hr _ ih =>
    intro b hb
    rcases List.mem_cons.mp hb with rfl | hb
    · exact ⟨_, List.mem_cons_self .., hr⟩
    · obtain ⟨a, ha, har⟩ := ih b hb
      exact ⟨a, List.mem_cons_of_mem _ ha, har⟩

/-- Filtering two `Forall₂`-related lists by predicates that agree on
related elements keeps the lists related, and records the predicate. -/
theorem forall₂_filter {α β : Type} {R : α → β → Prop}
    {p : α → Bool} {q : β → Bool}
    (hpq : ∀ a b, R a b → p a = q b) :
    ∀ {l₁ : List α} {l₂ : List β}, List.Forall₂ R l₁ l₂ →
      List.Forall₂ (fun a b => R a b ∧ p a = true)
        (l₁.filter p) (l₂.filter q) := by
  intro l₁ l₂ h
  induction h with
  | nil => simp
  | cons hr hrest ih =>
    rename_i a b l₁' l₂'
    by_cases hp : p a = true
    · rw [List.filter_cons_of_pos hp,
        List.filter_cons_of_pos ((hpq a b hr) ▸ hp)]
      exact List.Forall₂.cons ⟨hr, hp⟩ ih
    · rw [List.filter_cons_of_neg hp,
        List.filter_cons_of_neg ((hpq a b hr) ▸ hp)]
      exact ih

/-- Mapping two `Forall₂`-related lists by functions that agree on
related elements yields equal lists. -/
theorem forall₂_map_eq {α β γ : Type} {R : α → β → Prop}
    {f : α → γ} {g : β → γ}
    (hfg : ∀ a b, R a b → f a = g b) :
    ∀ {l₁ : List α} {l₂ : List β}, List.Forall₂ R l₁ l₂ →
      l₁.map f = l₂.map g := by
  intro l₁ l₂ h
  induction h with
  | nil => rfl
  | cons hr _ ih => simp only [List.map_cons, hfg _ _ hr, ih]

/-- The annual energy of concatenated reference lists is the sum of the
per-list annual energies. -/
theorem annualSum_flatten (profiles : String × Nat → List ℚ)
    (L : List (List (String × Nat))) :
    annualSum profiles L.flatten = (L.map (annualSum profiles)).sum := by
  induction L with
  | nil => rfl
  | cons l ls ih =>
    simp only [List.flatten_cons, annualSum, List.map_append,
      List.sum_append, List.map_cons, List.sum_cons] at *
    rw [ih]

/-- A key absent from the mapping makes the deletion loop fail, wherever
it occurs in the list of keys to delete (`del` only ever removes keys, so
the key is still absent when its turn comes). -/
theorem delKeys_eq_none (ks : List String) (m : List (String × ℚ))
    (k : String) (hk : k ∈ ks) (hmiss : k ∉ m.map Prod.fst) :
    delKeys m ks = none := by
  induction ks generalizing m with
  | nil => cases hk
  | cons k0 ks' ih =>
    simp only [delKeys]
    cases hdel : delKey m k0 with
    | none => rfl
    | some m2 =>
      have hsub : m2.map Prod.fst ⊆ m.map Prod.fst := by
        have hm2 : m2 = m.filter (fun p => p.1 ≠ k0) := by
          unfold delKey at hdel
          split at hdel
          · exact (Option.some.inj hdel).symm
          · cases hdel
        rw [hm2]
        exact List.map_subset _ (List.filter_sublist _).subset
      rcases List.mem_cons.mp hk with rfl | hk'
      · exfalso
        unfold delKey at hdel
        split at hdel
        next hin => exact hmiss hin
        next => cases hdel
      · exact ih m2 hk' (fun hmem => hmiss (hsub hmem))

/-- C3: for every cell and fine-type row, a successful draw returns
`round(expected_count)` profile ids, pairwise distinct within the cell
and type, all inside `[0, pool_size[fine-type])`. -/
theorem claim_C3_sample_size_distinct_range (rows : List HHRow)
    (pool : String → Nat) (g : Nat) (out : List (String × List Nat))
    (g' : Nat) (h : drawRows rows pool g = some (out, g')) :
    List.Forall₂ (RowDrawOk pool) rows out :=
  drawRows_spec rows pool g out g' h

/-- Witness for C3: the concrete cell `rowsC3` (expected count 2.4, pool
size 10, generator state 7) draws exactly the 2 distinct ids 6 and 3. -/
theorem claim_C3_witness :
    List.Forall₂ (RowDrawOk poolTen) rowsC3 [("SO", [6, 3])] :=
  claim_C3_sample_size_distinct_range rowsC3 poolTen 7
    [("SO", [6, 3])] 642666333 (by
      have h1 : rint (12/5) = 2 := by norm_num [rint]
      simp only [rowsC3, drawRows, h1]
      decide)

/-- C7: a rounded expected count exceeding the type's pool size makes
`get_cell_demand_profile_ids` fail (the `ValueError` of `random.sample`,
which the module never catches: there is no retry and no partial
output). -/
theorem claim_C7_insufficient_pool (rows : List HHRow)
    (pool : String → Nat) (g : Nat) (r : HHRow) (hr : r ∈ rows)
    (hbad : pool r.hh_type < (rint r.hh_10types).toNat) :
    getCellDemandProfileIds rows pool g = none := by
  unfold getCellDemandProfileIds
  rw [drawRows_eq_none_of_exceeds rows pool r hr hbad g]

/-- Witness for C7: requesting 5 distinct ids from a pool of 3 fails. -/
theorem claim_C7_witness :
    getCellDemandProfileIds rowsC7 poolThree 11 = none :=
  claim_C7_insufficient_pool rowsC7 poolThree 11 ⟨"SO", 5⟩
    (by simp [rowsC7])
    (by
      have h5 : rint 5 = 5 := by norm_num [rint]
      simp [poolThree, h5])

/-- C2: the primary sampler (`hh_demand_profiles.py`, `np.rint`) draws
nearest-integer many ids (2.4 → 2 and 1.6 → 2), but the near-duplicate
variant (`hh_demand_profiles_tools.py`, `astype(int)`) truncates: at
expected count 1.6 it draws only 1 id, diverging from the documented
nearest-integer rounding. -/
theorem claim_C2_rounding_divergence :
    rint (12/5) = 2 ∧ rint (8/5) = 2 ∧ truncToInt (8/5) = 1 ∧
    (drawRows rowC2 poolTen 3).map
      (fun x => x.1.map (fun p => p.2.length)) = some [2] ∧
    (drawRowsTools rowC2 poolTen 3).map
      (fun x => x.1.map (fun p => p.2.length)) = some [1] := by
  have h2 : rint (8/5) = 2 := by norm_num [rint]
  have h1 : truncToInt (8/5) = 1 := by norm_num [truncToInt]
  refine ⟨by norm_num [rint], h2, h1, ?_, ?_⟩
  · simp only [rowC2, drawRows, h2]
    decide
  · simp only [rowC2, drawRowsTools, h1]
    decide

/-- The per-grid row selection only depends on the sampler-visible
columns. -/
theorem cellsOfGrid_congr (cells₁ cells₂ : List CellRow)
    (h : List.Forall₂ SamplerVisible cells₁ cells₂) (gid : String) :
    cellsOfGrid cells₁ gid = cellsOfGrid cells₂ gid := by
  unfold cellsOfGrid
  exact forall₂_map_eq
    (fun a b hr => by
      obtain ⟨⟨-, h2, h3⟩, -⟩ := hr
      rw [HHRow.mk.injEq]
      exact ⟨h2, h3⟩)
    (forall₂_filter (fun a b hr => by rw [hr.1]) h)

/-- The grouped draw loop only depends on the sampler-visible columns. -/
theorem metadataDraws_congr (cells₁ cells₂ : List CellRow)
    (h : List.Forall₂ SamplerVisible cells₁ cells₂) (pool : String → Nat)
    (keys : List String) :
    ∀ g, metadataDraws keys cells₁ pool g =
      metadataDraws keys cells₂ pool g := by
  induction keys with
  | nil => intro g; rfl
  | cons gid gids ih =>
    intro g
    simp only [metadataDraws, cellsOfGrid_congr cells₁ cells₂ h gid]
    cases hq : getCellDemandProfileIds (cellsOfGrid cells₂ gid) pool g with
    | none => rfl
    | some p =>
      obtain ⟨ids, g2⟩ := p
      dsimp only
      rw [ih g2]

/-- C9: the sampling stage is a deterministic function of the generator
seed and of the sampler-visible input columns: two runs from the same
seed over inputs that agree on those columns produce identical
`cell_profile_ids` rows (in particular, re-running on the very same input
reproduces the rows exactly). -/
theorem claim_C9_sampler_deterministic (cells₁ cells₂ : List CellRow)
    (pool : String → Nat) (g : Nat)
    (h : List.Forall₂ SamplerVisible cells₁ cells₂) :
    getCellDemandMetadata cells₁ pool g =
      getCellDemandMetadata cells₂ pool g := by
  unfold getCellDemandMetadata
  rw [forall₂_map_eq (fun a b (hr : SamplerVisible a b) => hr.1) h]
  exact metadataDraws_congr cells₁ cells₂ h pool _ g

/-- Witness for C9: the two concrete runs coincide. -/
theorem claim_C9_witness :
    getCellDemandMetadata cellsW1 poolTen 5 =
      getCellDemandMetadata cellsW2 poolTen 5 :=
  claim_C9_sampler_deterministic cellsW1 cellsW2 poolTen 5
    (List.Forall₂.cons ⟨rfl, rfl, rfl⟩
      (List.Forall₂.cons ⟨rfl, rfl, rfl⟩ List.Forall₂.nil))

/-- C5: a region represented by at least one cell but missing from the
demand-regio reference for a scenario year makes the reconciler fail
(the `KeyError` of the `.loc[(year, nuts3), "demand_mwha"]` lookup),
so no cell ever receives a silently defaulted factor of 1. -/
theorem claim_C5_missing_reference (metas : List CellMeta)
    (profiles : String × Nat → List ℚ)
    (demandRegio : Nat × String → Option ℚ) (m : CellMeta)
    (hm : m ∈ metas)
    (hmiss : demandRegio (2035, m.nuts3) = none ∨
      demandRegio (2050, m.nuts3) = none) :
    adjustToDemandRegioNuts3Annual metas profiles demandRegio = none :=
  assignFactors_eq_none metas profiles demandRegio metas m hm hmiss

/-- Witness for C5: the concrete reconciliation fails. -/
theorem claim_C5_witness :
    adjustToDemandRegioNuts3Annual metasC5 profilesOne drC5 = none :=
  claim_C5_missing_reference metasC5 profilesOne drC5
    ⟨"g1", [("SO", 0)], "DEA01"⟩ (by simp [metasC5])
    (Or.inl (by simp [drC5]))

/-- C6: on success, for each scenario year (2035 and 2050) every cell of
a region carries the same factor — the authoritative demand of that year
divided by the region's synthetic annual total, both expressed in Wh
(`d * 1e6` is the MWh demand in Wh) — and, per year, the factor-weighted
synthetic totals of the region's cells sum back to exactly the
authoritative demand. -/
theorem claim_C6_reconciliation_exact (metas : List CellMeta)
    (profiles : String × Nat → List ℚ)
    (demandRegio : Nat × String → Option ℚ) (out : List CellMetaF)
    (n3 : String) (d35 d50 S : ℚ)
    (hadj : adjustToDemandRegioNuts3Annual metas profiles demandRegio
      = some out)
    (hd35 : demandRegio (2035, n3) = some d35)
    (hd50 : demandRegio (2050, n3) = some d50)
    (hS : annualSum profiles (nuts3ProfileIds metas n3) = S)
    (hpos : 0 < S) :
    (∀ o ∈ out, o.nuts3 = n3 →
      o.factor_2035 = d35 * 1000000 / S ∧
      o.factor_2050 = d50 * 1000000 / S) ∧
    ((out.filter (fun o => o.nuts3 = n3)).map
        (fun o => o.factor_2035 *
          annualSum profiles o.cell_profile_ids)).sum
      = d35 * 1000000 ∧
    ((out.filter (fun o => o.nuts3 = n3)).map
        (fun o => o.factor_2050 *
          annualSum profiles o.cell_profile_ids)).sum
      = d50 * 1000000 := by
  have hforall := assignFactors_spec metas profiles demandRegio metas
    out hadj
  have hSne : S ≠ 0 := ne_of_gt hpos
  have hfactor : ∀ (m : CellMeta) (o : CellMetaF),
      FactorRowOk metas profiles demandRegio m o → m.nuts3 = n3 →
        o.factor_2035 = d35 * 1000000 / S ∧
        o.factor_2050 = d50 * 1000000 / S := by
    intro m o hR hmn3
    obtain ⟨-, -, -, d35', d50', hd35', hd50', hf35, hf50⟩ := hR
    rw [hmn3] at hd35' hd50' hf35 hf50
    rw [hd35] at hd35'
    rw [hd50] at hd50'
    obtain rfl := Option.some.inj hd35'
    obtain rfl := Option.some.inj hd50'
    constructor
    · rw [hf35, hS, scalingFactor_eq _ _ hSne]
    · rw [hf50, hS, scalingFactor_eq _ _ hSne]
  have hfil := forall₂_filter
    (p := fun m : CellMeta => decide (m.nuts3 = n3))
    (q := fun o : CellMetaF => decide (o.nuts3 = n3))
    (fun a b hr => by dsimp only; rw [hr.2.2.1]) hforall
  have hflat : ((metas.filter
      (fun m : CellMeta => decide (m.nuts3 = n3))).map
        (fun m => annualSum profiles m.cell_profile_ids)).sum = S := by
    rw [← hS]
    unfold nuts3ProfileIds
    rw [annualSum_flatten, List.map_map]
    rfl
  have hsum : ∀ (sel : CellMetaF → ℚ) (c : ℚ),
      (∀ (a : CellMeta) (b : CellMetaF),
        FactorRowOk metas profiles demandRegio a b → a.nuts3 = n3 →
          sel b = c) →
      ((out.filter (fun o => o.nuts3 = n3)).map
          (fun o => sel o * annualSum profiles o.cell_profile_ids)).sum
        = c * S := by
    intro sel c hsel
    have hmap := forall₂_map_eq
      (f := fun m : CellMeta =>
        c * annualSum profiles m.cell_profile_ids)
      (g := fun o : CellMetaF =>
        sel o * annualSum profiles o.cell_profile_ids)
      (fun a b hr => by
        obtain ⟨hR, hp⟩ := hr
        have hn3a : a.nuts3 = n3 := by simpa using hp
        dsimp only
        rw [hsel a b hR hn3a, hR.2.1])
      hfil
    rw [← hmap, List.sum_map_mul_left, hflat]
  refine ⟨?_, ?_, ?_⟩
  · intro o ho hn3
    obtain ⟨m, -, hR⟩ := forall₂_exists_left hforall o ho
    exact hfactor m o hR ((hR.2.2.1).symm.trans hn3)
  · have h := hsum (fun o => o.factor_2035) (d35 * 1000000 / S)
      (fun a b hR hn => (hfactor a b hR hn).1)
    rw [div_mul_cancel₀ _ hSne] at h
    exact h
  · have h := hsum (fun o => o.factor_2050) (d50 * 1000000 / S)
      (fun a b hR hn => (hfactor a b hR hn).2)
    rw [div_mul_cancel₀ _ hSne] at h
    exact h

/-- Concrete evaluation of the reconciler on the witness data. -/
theorem adjustC6_eval :
    adjustToDemandRegioNuts3Annual metasC6 profilesC6 drC6
      = some outC6 := by
  norm_num [adjustToDemandRegioNuts3Annual, assignFactors, metasC6, drC6,
    profilesC6, scalingFactor, annualSum, nuts3ProfileIds, outC6]

/-- Concrete synthetic annual total of region N3 on the witness data. -/
theorem annualSumC6_eval :
    annualSum profilesC6 (nuts3ProfileIds metasC6 "N3") = 800 := by
  norm_num [annualSum, nuts3ProfileIds, metasC6, profilesC6]

/-- Witness for C6 at the concrete region: for both scenario years the
common factor is `1 * 1e6 / 800 = 1250` and the weighted totals sum to
`1e6` Wh. -/
theorem claim_C6_witness :
    (∀ o ∈ outC6, o.nuts3 = "N3" →
      o.factor_2035 = 1 * 1000000 / 800 ∧
      o.factor_2050 = 1 * 1000000 / 800) ∧
    ((outC6.filter (fun o => o.nuts3 = "N3")).map
        (fun o => o.factor_2035 *
          annualSum profilesC6 o.cell_profile_ids)).sum
      = 1 * 1000000 ∧
    ((outC6.filter (fun o => o.nuts3 = "N3")).map
        (fun o => o.factor_2050 *
          annualSum profilesC6 o.cell_profile_ids)).sum
      = 1 * 1000000 :=
  claim_C6_reconciliation_exact metasC6 profilesC6 drC6 outC6 "N3" 1 1 800
    adjustC6_eval rfl rfl annualSumC6_eval (by norm_num)

/-- Positivity of the scaling-factor formula for positive inputs. -/
theorem scalingFactor_pos (d S : ℚ) (hd : 0 < d) (hS : 0 < S) :
    0 < scalingFactor d S := by
  unfold scalingFactor
  exact div_pos (mul_pos hd (by norm_num)) (div_pos hS (by norm_num))

/-- C8 (amended): whenever the authoritative demands are strictly
positive and every represented region's synthetic annual total is
strictly positive, all stored factors are strictly positive (and, being
rationals produced by the formula, finite). Without these hypotheses the
claim fails, see the counterexample. -/
theorem claim_C8_amended (metas : List CellMeta)
    (profiles : String × Nat → List ℚ)
    (demandRegio : Nat × String → Option ℚ) (out : List CellMetaF)
    (hadj : adjustToDemandRegioNuts3Annual metas profiles demandRegio
      = some out)
    (hdpos : ∀ y n3 d, demandRegio (y, n3) = some d → 0 < d)
    (hSpos : ∀ m ∈ metas,
      0 < annualSum profiles (nuts3ProfileIds metas m.nuts3)) :
    ∀ o ∈ out, 0 < o.factor_2035 ∧ 0 < o.factor_2050 := by
  intro o ho
  obtain ⟨m, hm, hR⟩ := forall₂_exists_left
    (assignFactors_spec metas profiles demandRegio metas out hadj) o ho
  obtain ⟨-, -, -, d35, d50, hd35, hd50, hf35, hf50⟩ := hR
  have hS := hSpos m hm
  constructor
  · rw [hf35]
    exact scalingFactor_pos _ _ (hdpos _ _ _ hd35) hS
  · rw [hf50]
    exact scalingFactor_pos _ _ (hdpos _ _ _ hd50) hS

/-- Witness for C8 (amended): on the concrete data, the stored factors
of the first cell are strictly positive. -/
theorem claim_C8_witness :
    0 < cellF1.factor_2035 ∧ 0 < cellF1.factor_2050 :=
  claim_C8_amended metasC6 profilesC6 drC6 outC6 adjustC6_eval
    (by
      intro y n3 d hsome
      simp only [drC6, Option.some.injEq] at hsome
      rw [← hsome]
      norm_num)
    (by
      intro m hm
      have hmn : m.nuts3 = "N3" := by
        rcases (by simpa [metasC6] using hm :
          m = (⟨"g1", [("SO", 0), ("SO", 1)], "N3"⟩ : CellMeta) ∨
          m = (⟨"g2", [("SO", 2), ("SO", 3)], "N3"⟩ : CellMeta))
          with rfl | rfl <;> rfl
      rw [hmn, annualSumC6_eval]
      norm_num)
    cellF1 (by simp [outC6, cellF1])

/-- Counterexample for C8 as stated: with a zero authoritative demand
the reconciler runs through and stores the factor 0 — not a strictly
positive number — on the cell. -/
theorem claim_C8_counterexample :
    (adjustToDemandRegioNuts3Annual metasC5 profilesOne drC8).map
      (fun out => out.map (fun o => o.factor_2035)) = some [0] := by
  norm_num [adjustToDemandRegioNuts3Annual, assignFactors, metasC5, drC8,
    profilesOne, scalingFactor, annualSum, nuts3ProfileIds]

/-- C1 (amended): the substation series the code produces is the
spec-worded accumulation — factor times elementwise profile sum per
distinct (region, factor) group, accumulated into an all-zero series —
divided elementwise by 1000: `get_load_timeseries` converts the Wh
profiles to kWh output on top of the factor. -/
theorem claim_C1_amended (profiles : String × Nat → List ℚ)
    (timesteps : Nat) (metas : List CellMetaF) (year : Nat) :
    getLoadTimeseries profiles timesteps metas year =
      (specSubstationSeries profiles timesteps metas year).map
        (· / 1000) := by
  unfold getLoadTimeseries specSubstationSeries
  nth_rewrite 1 [← zerosSeries_map_div timesteps]
  exact foldl_addSeries_map _ _
    (fun k => partLoad_eq_specPartLoad profiles timesteps
      (groupProfileIds metas year k) k.2)
    (groupKeys metas year) (zerosSeries timesteps)

/-- Counterexample for C1 as stated: on the spec's worked example the
code yields `[1]` (kWh), not `1.25 × (sum of the 4 profiles) = [1000]`
(the spec-worded accumulation with no other scaling). -/
theorem claim_C1_counterexample :
    getLoadTimeseries profilesC1 1 metasC1 2035 = [1] ∧
    specSubstationSeries profilesC1 1 metasC1 2035 = [1000] ∧
    getLoadTimeseries profilesC1 1 metasC1 2035 ≠
      specSubstationSeries profilesC1 1 metasC1 2035 := by
  have h1 : getLoadTimeseries profilesC1 1 metasC1 2035 = [1] := by
    norm_num [getLoadTimeseries, groupKeys, factorOf, metasC1, profilesC1,
      groupProfileIds, partLoad, seriesAt, addSeries, zerosSeries,
      List.dedup_cons_of_mem, List.range_succ]
  have h2 : specSubstationSeries profilesC1 1 metasC1 2035 = [1000] := by
    norm_num [specSubstationSeries, groupKeys, factorOf, metasC1,
      profilesC1, groupProfileIds, specPartLoad, seriesAt, addSeries,
      zerosSeries, List.dedup_cons_of_mem, List.range_succ]
  refine ⟨h1, h2, ?_⟩
  rw [h1, h2]
  intro hcontra
  have := List.head_eq_of_cons_eq hcontra
  norm_num at this

/-- Counterexample for C4 as stated: with a zero-sum coarse group the
normalization loop does not raise any error — it produces a NaN share
(`0/0`, modelled by `none`) for the degenerate group and keeps
normalizing the other groups (here `SR` gets the share 1/2). -/
theorem claim_C4_counterexample :
    normalizeSubgroupShares countsC4 "SK" = none ∧
    normalizeSubgroupShares countsC4 "SR" = some (1/2) := by
  have h1 : hhSubgroups.find? (fun g => g.contains "SK")
      = some ["SK"] := by decide
  have h2 : hhSubgroups.find? (fun g => g.contains "SR")
      = some ["SR", "SO"] := by decide
  constructor
  · unfold normalizeSubgroupShares
    rw [h1]
    simp [fdiv, countsC4]
  · unfold normalizeSubgroupShares
    rw [h2]
    simp [fdiv, countsC4]
    norm_num

/-- C4 (amended): the share normalization of a coarse group divides each
member count by the group sum when that sum is nonzero, and silently
produces NaN (non-finite) shares when the sum is zero; no exception is
raised and the surrounding loop continues with the other groups. -/
theorem claim_C4_amended (counts : String → ℚ) (t : String)
    (grp : List String)
    (hfind : hhSubgroups.find? (fun g => g.contains t) = some grp) :
    ((grp.map counts).sum = 0 →
      normalizeSubgroupShares counts t = none) ∧
    ((grp.map counts).sum ≠ 0 →
      normalizeSubgroupShares counts t
        = some (counts t / (grp.map counts).sum)) := by
  unfold normalizeSubgroupShares
  rw [hfind]
  dsimp only
  unfold fdiv
  constructor
  · intro h
    rw [if_pos h]
  · intro h
    rw [if_neg h]

/-- Witness for C4 (amended) on a non-degenerate group: the `PR` share
is its count over the `PR`+`PO` group sum. -/
theorem claim_C4_witness :
    normalizeSubgroupShares countsC4b "PR"
      = some (countsC4b "PR" / ((["PR", "PO"].map countsC4b).sum)) :=
  (claim_C4_amended countsC4b "PR" ["PR", "PO"] (by decide)).2
    (by simp [countsC4b])

/-- C10: a household-type symbol present in the people table's index but
absent from the people-per-household mapping lands in the symmetric
difference, and its `del` from the mapping raises `KeyError`: the
operation fails instead of returning a result with that type skipped. -/
theorem claim_C10_del_missing_key (idx : List String)
    (people : String → ℚ) (mapping : List (String × ℚ)) (t : String)
    (ht : t ∈ idx) (hmiss : t ∉ mapping.map Prod.fst) :
    inhabitantsToHouseholds idx people mapping = none := by
  unfold inhabitantsToHouseholds
  have hsd : t ∈ symmDiffKeys idx (mapping.map Prod.fst) := by
    unfold symmDiffKeys
    refine List.mem_append_left _ ?_
    rw [List.mem_filter]
    exact ⟨ht, by simpa using hmiss⟩
  rw [delKeys_eq_none _ _ t hsd hmiss]

/-- Witness for C10: an index containing the unmapped symbol `XX` makes
the conversion fail. -/
theorem claim_C10_witness :
    inhabitantsToHouseholds ["SR", "XX"] (fun _ => 10) mappingC10
      = none :=
  claim_C10_del_missing_key ["SR", "XX"] (fun _ => 10) mappingC10 "XX"
    (by simp) (by simp [mappingC10])
